import Mathlib

/-!
Shallow embedding of the `bromance` authentication service
(src/api/src: main.rs, rest.rs, rpc/auth.rs, handlers/auth.rs,
models/user.rs, error.rs).

External effects are made explicit: database calls take the current list of
rows plus an optional injected storage failure, the current time and the
fresh salt are parameters, and the argon2 / jsonwebtoken crates (absent from
src/) are modelled from the spec, see the doc comments below.
-/

namespace Bromance

/-- Modelled from the spec: Credential Hasher (spec 4.1). The argon2 crate is
an external dependency, not in src/. The memory-hard digest is modelled as an
ideal (collision-free) function of the salt and the plaintext: the pair
itself. -/
def argonDigest (salt plaintext : String) : String × String :=
  (salt, plaintext)

/-- Modelled from the spec: a parsed self-describing hash string
(algorithm tag and parameters are fixed `Argon2::default()`, so only the salt
and the digest vary). -/
structure HashString where
  salt : String
  digest : String × String
deriving DecidableEq, Repr

/-- Modelled from the spec: `hash_password` with an explicit salt (the code
draws `SaltString::generate(&mut OsRng)` per call; the draw is a parameter
here). -/
def hashPassword (salt plaintext : String) : HashString :=
  ⟨salt, argonDigest salt plaintext⟩

/-- Modelled from the spec: `verify_password` recomputes the digest from the
candidate plaintext and the stored salt and compares. -/
def verifyPassword (plaintext : String) (h : HashString) : Bool :=
  h.digest == argonDigest h.salt plaintext

/-- A stored `password_hash` column value: either a string that
`PasswordHash::new` parses back into a hash, or a malformed string. -/
inductive StoredHash where
  | valid (h : HashString)
  | malformed (raw : String)
deriving DecidableEq, Repr

/-- Modelled from the spec: `PasswordHash::new` on a stored string. -/
def parseHash : StoredHash → Option HashString
  | .valid h => some h
  | .malformed _ => none

/-- The models/user.rs `User` row: id, email, password_hash, created_at.
`created_at` (a `NaiveDateTime`) is a timestamp. -/
structure User where
  id : Int
  email : String
  password_hash : StoredHash
  created_at : Int
deriving DecidableEq, Repr

/-- A sqlx storage error: whether `is_unique_violation()` holds, and the
`to_string()` text. -/
structure DbErr where
  unique_violation : Bool
  msg : String
deriving DecidableEq, Repr

/-- The query `SELECT ... FROM users WHERE email = ?` with `fetch_optional`: first row
whose email matches. -/
def findByEmail (db : List User) (email : String) : Option User :=
  db.find? (fun u => u.email == email)

/-- The query `SELECT COUNT(*) FROM users WHERE email = ?`. -/
def countByEmail (db : List User) (email : String) : Int :=
  ((db.filter (fun u => u.email == email)).length : Int)

/-- The statement `INSERT INTO users (email, password_hash) VALUES (?, ?)` against the
schema whose `email` column is UNIQUE: a duplicate email surfaces as a
unique-violation error, otherwise the row is created (id and created_at are
generated by the store; they are parameters here). -/
def insertUser (db : List User) (email : String) (ph : StoredHash)
    (newId createdAt : Int) : Except DbErr (User × List User) :=
  if db.any (fun u => u.email == email) then
    .error ⟨true, "UNIQUE constraint failed: users.email"⟩
  else
    let u : User := ⟨newId, email, ph, createdAt⟩
    .ok (u, db ++ [u])

/-- The `jsonwebtoken::Algorithm` values used by the source: `EdDSA` in rest.rs
and rpc/auth.rs, the `Header::default()` algorithm HS256 in handlers/auth.rs. -/
inductive Alg where
  | EdDSA
  | HS256
deriving DecidableEq, Repr

/-- A `jsonwebtoken::EncodingKey`: `from_ed_pem` (asymmetric) or
`from_secret` (symmetric). -/
inductive SigningKey where
  | edPem (pem : String)
  | fromSecret (s : String)
deriving DecidableEq, Repr

/-- Modelled from the spec: the Claims payload (spec 3, subject and
expiration instant). rest.rs and rpc/auth.rs name `crate::models::user::Claims`,
whose definition is missing from the src/ copy of models/user.rs; the fields
follow its construction sites and the identical local `Claims` struct of
handlers/auth.rs (sub, exp). -/
structure Claims where
  sub : String
  exp : Int
deriving DecidableEq, Repr

/-- A signed token: the encoded JWT determines header algorithm, claims and
signing key. -/
structure Token where
  alg : Alg
  claims : Claims
  key : SigningKey
deriving DecidableEq, Repr

/-- Whether the key family fits the header algorithm; `jsonwebtoken::encode`
fails on a mismatch, which is its error case reachable from this code. -/
def keyMatches : Alg → SigningKey → Bool
  | .EdDSA, .edPem _ => true
  | .HS256, .fromSecret _ => true
  | _, _ => false

/-- Modelled from the spec: `jsonwebtoken::encode` (Token Issuer, spec 4.2);
the crate is external to src/. Succeeds exactly when the key family fits the
header algorithm. -/
def encodeJwt (alg : Alg) (c : Claims) (k : SigningKey) : Option Token :=
  if keyMatches alg k then some ⟨alg, c, k⟩ else none

/-- main.rs `AppState`: the pool and the process-wide encoding key. -/
structure AppState where
  db : List User
  encoding_key : SigningKey

/-- main.rs lines 34-41: the key is loaded once at startup with
`EncodingKey::from_ed_pem(include_bytes!("../keys/private.pem"))` and placed
in the one `AppState` both servers share. -/
def loadAppState (db : List User) (pem : String) : AppState :=
  ⟨db, .edPem pem⟩

/-- Number of seconds of `chrono::Duration::days 7` (rest.rs line 105). -/
def sevenDays : Int := 7 * 86400

/-- Number of seconds of `chrono::Duration::hours 24` (rpc/auth.rs line 47,
handlers/auth.rs line 63). -/
def twentyFourHours : Int := 24 * 3600

/-! ## rest.rs -/

/-- The HTTP login outcome of rest.rs: either an `ErrorResponse` body with a
status code, or a `LoginResponse` body `(token, success, message)` with a
status code. -/
inductive RestLoginResult where
  | failure (status : Nat) (error : String)
  | success (status : Nat) (token : Token) (succ : Bool) (message : String)
deriving DecidableEq, Repr

/-- rest.rs `RegisterResponse` with its status code. -/
structure RestRegisterResult where
  status : Nat
  success : Bool
  message : String
deriving DecidableEq, Repr

/-- rest.rs lines 38-135, `login`, from the `match` on the awaited
`fetch_optional` result onwards (`Ok(Some(user))` / `Ok(None)` / `Err(e)`).
Statuses: 200 OK, 401 UNAUTHORIZED, 500 INTERNAL_SERVER_ERROR. -/
def restLoginCore (found : Except DbErr (Option User)) (password : String)
    (now : Int) (key : SigningKey) : RestLoginResult :=
  match found with
  | .error _ => .failure 500 "Internal server error"
  | .ok none => .failure 401 "Invalid credentials"
  | .ok (some user) =>
    match parseHash user.password_hash with
    | none => .failure 500 "Internal server error"
    | some parsed =>
      if !(verifyPassword password parsed) then
        .failure 401 "Invalid credentials"
      else
        let claims : Claims := ⟨toString user.id, now + sevenDays⟩
        match encodeJwt .EdDSA claims key with
        | none => .failure 500 "Internal server error"
        | some t => .success 200 t true "Login successful"

/-- rest.rs `login` including the lookup round trip: `findErr` injects a
failure of the query, otherwise the lookup runs against `db`. -/
def restLogin (db : List User) (username password : String)
    (findErr : Option DbErr) (now : Int) (key : SigningKey) : RestLoginResult :=
  restLoginCore
    (match findErr with
     | some e => .error e
     | none => .ok (findByEmail db username))
    password now key

/-- rest.rs lines 137-209, `register`. `precheckErr` injects a failure of the
COUNT query (its `Err` is silently ignored by `if let Ok(count)`);
`hashResult` is the hasher outcome (`None` = catastrophic hashing failure);
`insertErr` injects a non-constraint insert failure, otherwise the insert
runs against `db`. Returns the response and the store after the call. -/
def restRegister (db : List User) (username password : String)
    (precheckErr : Option DbErr) (hashResult : Option HashString)
    (insertErr : Option DbErr) (newId createdAt : Int) :
    RestRegisterResult × List User :=
  let existing : Except DbErr Int :=
    match precheckErr with
    | some e => .error e
    | none => .ok (countByEmail db username)
  let conflict : Bool :=
    match existing with
    | .ok count => count > 0
    | .error _ => false
  if conflict then
    (⟨409, false, "User already exists"⟩, db)
  else
    match hashResult with
    | none => (⟨500, false, "Internal server error"⟩, db)
    | some ph =>
      let result : Except DbErr (User × List User) :=
        match insertErr with
        | some e => .error e
        | none => insertUser db username (.valid ph) newId createdAt
      match result with
      | .ok (_, db2) => (⟨201, true, "Registration successful"⟩, db2)
      | .error _ => (⟨500, false, "Internal server error"⟩, db)

/-! ## rpc/auth.rs -/

/-- The tonic `Status` codes constructed by rpc/auth.rs. -/
inductive GrpcCode where
  | internal
  | unauthenticated
deriving DecidableEq, Repr

/-- A tonic `Status`: code plus message. -/
structure GrpcStatus where
  code : GrpcCode
  msg : String
deriving DecidableEq, Repr

/-- The proto `LoginResponse`. -/
structure RpcLoginResponse where
  token : Token
  success : Bool
  message : String
deriving DecidableEq, Repr

/-- The proto `RegisterResponse`. -/
structure RpcRegisterResponse where
  success : Bool
  message : String
deriving DecidableEq, Repr

/-- rpc/auth.rs lines 23-65, `AuthServiceImpl::login`, from the lookup
result onwards. A storage failure is mapped with
`Status::internal(e.to_string())`, so the raw error text becomes the status
message; a hash-parse failure likewise carries the parse error text (a fixed
string here since the model parse error carries no text). -/
def rpcLoginCore (found : Except DbErr (Option User)) (password : String)
    (now : Int) (key : SigningKey) : Except GrpcStatus RpcLoginResponse :=
  match found with
  | .error e => .error ⟨.internal, e.msg⟩
  | .ok none => .error ⟨.unauthenticated, "Invalid credentials"⟩
  | .ok (some user) =>
    match parseHash user.password_hash with
    | none => .error ⟨.internal, "password hash parse error"⟩
    | some parsed =>
      if !(verifyPassword password parsed) then
        .error ⟨.unauthenticated, "Invalid credentials"⟩
      else
        let expiration : Int := now + twentyFourHours
        let claims : Claims := ⟨user.email, expiration⟩
        match encodeJwt .EdDSA claims key with
        | none => .error ⟨.internal, "jwt encode error"⟩
        | some t => .ok ⟨t, true, "Login successful"⟩

/-- rpc/auth.rs `login` including the lookup round trip. -/
def rpcLogin (db : List User) (username password : String)
    (findErr : Option DbErr) (now : Int) (key : SigningKey) :
    Except GrpcStatus RpcLoginResponse :=
  rpcLoginCore
    (match findErr with
     | some e => .error e
     | none => .ok (findByEmail db username))
    password now key

/-- rpc/auth.rs lines 67-93, `AuthServiceImpl::register`. No existence
pre-check: the INSERT ... RETURNING runs directly, and any insert failure
(the unique violation included) becomes `Status::internal(e.to_string())`. -/
def rpcRegister (db : List User) (username password : String)
    (hashResult : Option HashString) (insertErr : Option DbErr)
    (newId createdAt : Int) :
    (Except GrpcStatus RpcRegisterResponse) × List User :=
  match hashResult with
  | none => (.error ⟨.internal, "password hashing error"⟩, db)
  | some ph =>
    let result : Except DbErr (User × List User) :=
      match insertErr with
      | some e => .error e
      | none => insertUser db username (.valid ph) newId createdAt
    match result with
    | .error e => (.error ⟨.internal, e.msg⟩, db)
    | .ok (_, db2) => (.ok ⟨true, "User registered successfully"⟩, db2)

/-! ## error.rs and handlers/auth.rs

handlers/auth.rs and error.rs are present in src/ but not wired into the
binary: main.rs declares only `mod models; mod rest; mod rpc;`, and no route
of the mounted routers reaches these handlers. They are embedded because
several claims cite them. -/

/-- error.rs `AppError`. -/
inductive AppError where
  | Sqlx (e : DbErr)
  | PasswordHash
  | Jwt
  | LoginFail
  | AuthError (msg : String)
deriving DecidableEq, Repr

/-- error.rs lines 137-174, `AppError::into_response`: status code and the
`error` field of the JSON body. A sqlx unique violation maps to
409 CONFLICT; other sqlx errors to 500 with the fixed text "Database error". -/
def appErrorIntoResponse : AppError → Nat × String
  | .Sqlx e =>
    if e.unique_violation then (409, "Email already exists")
    else (500, "Database error")
  | .PasswordHash => (500, "Password hashing error")
  | .Jwt => (500, "Token error")
  | .LoginFail => (401, "Invalid email or password")
  | .AuthError m => (400, m)

/-- handlers/auth.rs lines 26-58, `register`: hash, INSERT ... RETURNING,
return the created `User` (failures propagate as `AppError` via `?`).
Returns also the store after the call. -/
def handlersRegister (db : List User) (email password : String)
    (hashResult : Option HashString) (insertErr : Option DbErr)
    (newId createdAt : Int) : (Except AppError User) × List User :=
  match hashResult with
  | none => (.error .PasswordHash, db)
  | some ph =>
    let result : Except DbErr (User × List User) :=
      match insertErr with
      | some e => .error e
      | none => insertUser db email (.valid ph) newId createdAt
    match result with
    | .error e => (.error (.Sqlx e), db)
    | .ok (u, db2) => (.ok u, db2)

/-- handlers/auth.rs lines 60-96, `login`, from the lookup result onwards:
absent ⇒ `LoginFail`, hash-parse failure (`?`) ⇒ `PasswordHash`, verify
mismatch ⇒ `LoginFail`, then sign with `Header::default()` (HS256) and
`EncodingKey::from_secret("secret")`. Returns the `AuthResponse` token. -/
def handlersLoginCore (found : Except DbErr (Option User))
    (password : String) (now : Int) : Except AppError Token :=
  match found with
  | .error e => .error (.Sqlx e)
  | .ok none => .error .LoginFail
  | .ok (some user) =>
    match parseHash user.password_hash with
    | none => .error .PasswordHash
    | some parsed =>
      if !(verifyPassword password parsed) then
        .error .LoginFail
      else
        let expiration : Int := now + twentyFourHours
        let claims : Claims := ⟨user.email, expiration⟩
        match encodeJwt .HS256 claims (.fromSecret "secret") with
        | none => .error .Jwt
        | some t => .ok t

/-- handlers/auth.rs `login` including the lookup round trip. -/
def handlersLogin (db : List User) (email password : String)
    (findErr : Option DbErr) (now : Int) : Except AppError Token :=
  handlersLoginCore
    (match findErr with
     | some e => .error e
     | none => .ok (findByEmail db email))
    password now

/-! ## Serialization (serde) -/

/-- serde serialization of `User` (models/user.rs lines 3-10): the
`password_hash` field carries `#[serde(skip)]`, so the serialized object has
exactly the fields id, email, created_at. -/
def serializeUser (u : User) : List (String × String) :=
  [("id", toString u.id), ("email", u.email), ("created_at", toString u.created_at)]

/-- serde serialization of rest.rs `RegisterResponse`: fields success and
message only. -/
def serializeRestRegister (r : RestRegisterResult) : List (String × String) :=
  [("success", toString r.success), ("message", r.message)]

/-- Serialization of the proto `RegisterResponse`: fields success and message
only. -/
def serializeRpcRegister (r : RpcRegisterResponse) : List (String × String) :=
  [("success", toString r.success), ("message", r.message)]

/-! ## Outcome classification

The success-or-error outcome of a login as a transport-independent value,
for comparing the two bindings: HTTP 401 and gRPC `unauthenticated` both
denote rejected credentials, HTTP 500 and gRPC `internal` both denote an
operational fault. -/

/-- The three login outcomes shared by both bindings. -/
inductive LoginOutcome where
  | accepted
  | invalidCredentials
  | internalFault
deriving DecidableEq, Repr

/-- Classify an HTTP login response. -/
def restLoginOutcome : RestLoginResult → LoginOutcome
  | .failure 401 _ => .invalidCredentials
  | .failure _ _ => .internalFault
  | .success _ _ _ _ => .accepted

/-- Classify an RPC login response. -/
def rpcLoginOutcome : Except GrpcStatus RpcLoginResponse → LoginOutcome
  | .error ⟨.unauthenticated, _⟩ => .invalidCredentials
  | .error ⟨.internal, _⟩ => .internalFault
  | .ok _ => .accepted

/-! ## Helper lemmas -/

theorem any_email_eq_false (db : List User) (email : String)
    (h : ∀ v ∈ db, (v.email == email) = false) :
    db.any (fun u => u.email == email) = false := by
  rw [List.any_eq_false]
  intro x hx
  simp [h x hx]

theorem countByEmail_eq_zero (db : List User) (email : String)
    (h : ∀ v ∈ db, (v.email == email) = false) :
    countByEmail db email = 0 := by
  unfold countByEmail
  have hnil : db.filter (fun u => u.email == email) = [] := by
    rw [List.filter_eq_nil_iff]
    intro a ha
    simp [h a ha]
  simp [hnil]

theorem countByEmail_pos (db : List User) (email : String)
    (h : db.any (fun u => u.email == email) = true) :
    0 < countByEmail db email := by
  unfold countByEmail
  rw [Int.ofNat_pos, List.length_pos]
  intro hnil
  obtain ⟨x, hx, hpx⟩ := List.any_eq_true.mp h
  have : x ∈ db.filter (fun u => u.email == email) := by
    rw [List.mem_filter]
    exact ⟨hx, hpx⟩
  rw [hnil] at this
  exact absurd this (List.not_mem_nil x)

theorem insertUser_fresh (db : List User) (email : String) (ph : StoredHash)
    (newId createdAt : Int)
    (h : ∀ v ∈ db, (v.email == email) = false) :
    insertUser db email ph newId createdAt =
      .ok (⟨newId, email, ph, createdAt⟩, db ++ [⟨newId, email, ph, createdAt⟩]) := by
  unfold insertUser
  rw [any_email_eq_false db email h]
  simp

theorem insertUser_dupe (db : List User) (email : String) (ph : StoredHash)
    (newId createdAt : Int)
    (h : db.any (fun u => u.email == email) = true) :
    insertUser db email ph newId createdAt =
      .error ⟨true, "UNIQUE constraint failed: users.email"⟩ := by
  unfold insertUser
  rw [h]
  simp

theorem findByEmail_snoc (db : List User) (u : User) (email : String)
    (h : ∀ v ∈ db, (v.email == email) = false) (hu : u.email = email) :
    findByEmail (db ++ [u]) email = some u := by
  unfold findByEmail
  rw [List.find?_append]
  have h1 : db.find? (fun v => v.email == email) = none := by
    rw [List.find?_eq_none]
    intro x hx
    simp [h x hx]
  rw [h1]
  simp [List.find?, hu]

theorem findByEmail_singleton (u : User) : findByEmail [u] u.email = some u := by
  simp [findByEmail, List.find?]

theorem verifyPassword_self (p s : String) :
    verifyPassword p (hashPassword s p) = true := by
  simp [verifyPassword, hashPassword]

theorem restLoginCore_success (found : Except DbErr (Option User))
    (password : String) (now : Int) (key : SigningKey)
    (st : Nat) (t : Token) (b : Bool) (m : String)
    (hs : restLoginCore found password now key = .success st t b m) :
    st = 200 ∧ b = true ∧ m = "Login successful" ∧ t.alg = .EdDSA
    ∧ t.key = key ∧ t.claims.exp = now + sevenDays
    ∧ ∃ u ph, found = .ok (some u) ∧ parseHash u.password_hash = some ph
        ∧ verifyPassword password ph = true
        ∧ t.claims.sub = toString u.id := by
  cases found with
  | error e => simp [restLoginCore] at hs
  | ok opt =>
    cases opt with
    | none => simp [restLoginCore] at hs
    | some u =>
      cases hph : parseHash u.password_hash with
      | none => simp [restLoginCore, hph] at hs
      | some ph =>
        cases hv : verifyPassword password ph with
        | false => simp [restLoginCore, hph, hv] at hs
        | true =>
          cases hk : keyMatches .EdDSA key with
          | false => simp [restLoginCore, encodeJwt, hph, hv, hk] at hs
          | true =>
            simp only [restLoginCore, encodeJwt, hph, hv, hk,
              Bool.not_true, Bool.false_eq_true, if_false, if_true,
              RestLoginResult.success.injEq] at hs
            obtain ⟨hst, ht, hb, hm⟩ := hs
            subst hst; subst ht; subst hb; subst hm
            exact ⟨rfl, rfl, rfl, rfl, rfl, rfl, u, ph, rfl, hph, hv, rfl⟩

theorem rpcLoginCore_success (found : Except DbErr (Option User))
    (password : String) (now : Int) (key : SigningKey)
    (r : RpcLoginResponse)
    (hs : rpcLoginCore found password now key = .ok r) :
    r.success = true ∧ r.message = "Login successful"
    ∧ r.token.alg = .EdDSA ∧ r.token.key = key
    ∧ r.token.claims.exp = now + twentyFourHours
    ∧ ∃ u ph, found = .ok (some u) ∧ parseHash u.password_hash = some ph
        ∧ verifyPassword password ph = true
        ∧ r.token.claims.sub = u.email := by
  cases found with
  | error e => simp [rpcLoginCore] at hs
  | ok opt =>
    cases opt with
    | none => simp [rpcLoginCore] at hs
    | some u =>
      cases hph : parseHash u.password_hash with
      | none => simp [rpcLoginCore, hph] at hs
      | some ph =>
        cases hv : verifyPassword password ph with
        | false => simp [rpcLoginCore, hph, hv] at hs
        | true =>
          cases hk : keyMatches .EdDSA key with
          | false => simp [rpcLoginCore, encodeJwt, hph, hv, hk] at hs
          | true =>
            simp only [rpcLoginCore, encodeJwt, hph, hv, hk,
              Bool.not_true, Bool.false_eq_true, if_false, if_true,
              Except.ok.injEq] at hs
            subst hs
            exact ⟨rfl, rfl, rfl, rfl, rfl, u, ph, rfl, hph, hv, rfl⟩

theorem handlersLoginCore_success (found : Except DbErr (Option User))
    (password : String) (now : Int) (t : Token)
    (hs : handlersLoginCore found password now = .ok t) :
    t.alg = .HS256 ∧ t.key = .fromSecret "secret"
    ∧ t.claims.exp = now + twentyFourHours
    ∧ ∃ u ph, found = .ok (some u) ∧ parseHash u.password_hash = some ph
        ∧ verifyPassword password ph = true
        ∧ t.claims.sub = u.email := by
  cases found with
  | error e => simp [handlersLoginCore] at hs
  | ok opt =>
    cases opt with
    | none => simp [handlersLoginCore] at hs
    | some u =>
      cases hph : parseHash u.password_hash with
      | none => simp [handlersLoginCore, hph] at hs
      | some ph =>
        cases hv : verifyPassword password ph with
        | false => simp [handlersLoginCore, hph, hv] at hs
        | true =>
          simp only [handlersLoginCore, encodeJwt, hph, hv, keyMatches,
            Bool.not_true, Bool.false_eq_true, if_false, if_true,
            Except.ok.injEq] at hs
          subst hs
          exact ⟨rfl, rfl, rfl, u, ph, rfl, hph, hv, rfl⟩

/-! ## Claims -/

/-- Claim C6 (confirmed, modelled from the spec): `verify(p, hash(p))` is
true for every plaintext; `verify(p, hash(q))` is false for distinct
plaintexts; and two hash calls with distinct fresh salts produce distinct
hash strings. -/
theorem hash_verify_roundtrip (p q s s1 s2 : String)
    (hpq : p ≠ q) (hs : s1 ≠ s2) :
    verifyPassword p (hashPassword s p) = true
    ∧ verifyPassword p (hashPassword s q) = false
    ∧ hashPassword s1 p ≠ hashPassword s2 p := by
  refine ⟨?_, ?_, ?_⟩
  · simp [verifyPassword, hashPassword]
  · simp only [verifyPassword, hashPassword, argonDigest]
    simp only [beq_eq_false_iff_ne, ne_eq, Prod.mk.injEq]
    intro ⟨_, hqp⟩
    exact hpq hqp.symm
  · intro hcontra
    exact hs (congrArg HashString.salt hcontra)

/-- Witness for C6 at concrete plaintexts and salts. -/
theorem hash_verify_roundtrip_witness :
    verifyPassword "pw1" (hashPassword "saltA" "pw1") = true
    ∧ verifyPassword "pw1" (hashPassword "saltA" "pw2") = false
    ∧ hashPassword "saltA" "pw1" ≠ hashPassword "saltB" "pw1" :=
  hash_verify_roundtrip "pw1" "pw2" "saltA" "saltA" "saltB"
    (by decide) (by decide)

/-- Claim C3 (confirmed): login with a never-registered email and login with
a registered email but wrong password produce the very same result in both
mounted bindings — `(401, "Invalid credentials")` over HTTP and
`unauthenticated "Invalid credentials"` over RPC. -/
theorem login_invalid_credentials_indistinguishable
    (u : User) (ph : HashString) (password : String) (now : Int)
    (key : SigningKey)
    (hparse : parseHash u.password_hash = some ph)
    (hverify : verifyPassword password ph = false) :
    restLogin [u] u.email password none now key
      = .failure 401 "Invalid credentials"
    ∧ restLogin [] u.email password none now key
      = .failure 401 "Invalid credentials"
    ∧ rpcLogin [u] u.email password none now key
      = .error ⟨.unauthenticated, "Invalid credentials"⟩
    ∧ rpcLogin [] u.email password none now key
      = .error ⟨.unauthenticated, "Invalid credentials"⟩ := by
  have hfind := findByEmail_singleton u
  refine ⟨?_, ?_, ?_, ?_⟩ <;>
    simp [restLogin, rpcLogin, restLoginCore, rpcLoginCore, hfind,
      findByEmail, hparse, hverify]

/-- Witness for C3: a wrong password against a stored argon2 hash of "pw1",
and the same email against the empty store. -/
theorem login_invalid_credentials_indistinguishable_witness :
    restLogin [⟨1, "a@x.com", .valid (hashPassword "s" "pw1"), 0⟩]
        "a@x.com" "wrong" none 0 (.edPem "k")
      = .failure 401 "Invalid credentials"
    ∧ restLogin [] "a@x.com" "wrong" none 0 (.edPem "k")
      = .failure 401 "Invalid credentials"
    ∧ rpcLogin [⟨1, "a@x.com", .valid (hashPassword "s" "pw1"), 0⟩]
        "a@x.com" "wrong" none 0 (.edPem "k")
      = .error ⟨.unauthenticated, "Invalid credentials"⟩
    ∧ rpcLogin [] "a@x.com" "wrong" none 0 (.edPem "k")
      = .error ⟨.unauthenticated, "Invalid credentials"⟩ :=
  login_invalid_credentials_indistinguishable
    ⟨1, "a@x.com", .valid (hashPassword "s" "pw1"), 0⟩
    (hashPassword "s" "pw1") "wrong" 0 (.edPem "k") (by rfl) (by decide)

/-- Claim C7, counterexample: a storage failure during RPC login surfaces
with the raw sqlx error text as the status message
(`Status::internal(e.to_string())`, rpc/auth.rs line 36), refuting the claim
that the caller-visible message is always a fixed generic string. -/
theorem rpc_login_leaks_storage_error_counterexample :
    rpcLogin [] "a@x.com" "pw1" (some ⟨false, "near users: syntax error"⟩) 0
        (.edPem "k")
      = .error ⟨.internal, "near users: syntax error"⟩ := by
  rfl

/-- Claim C7 (corrected): the HTTP binding maps every storage failure to the
fixed text "Internal server error", but the RPC binding copies the raw
storage error text into the surfaced status message, both at login
(rpc/auth.rs line 36) and at register (line 87). -/
theorem storage_error_text_exposure
    (db : List User) (username password : String) (e : DbErr)
    (h : HashString) (now newId createdAt : Int) (key : SigningKey)
    (hfresh : ∀ v ∈ db, (v.email == username) = false) :
    restLogin db username password (some e) now key
      = .failure 500 "Internal server error"
    ∧ (restRegister db username password none (some h) (some e)
        newId createdAt).1
      = ⟨500, false, "Internal server error"⟩
    ∧ rpcLogin db username password (some e) now key
      = .error ⟨.internal, e.msg⟩
    ∧ (rpcRegister db username password (some h) (some e) newId createdAt).1
      = .error ⟨.internal, e.msg⟩ := by
  have hcount := countByEmail_eq_zero db username hfresh
  refine ⟨?_, ?_, ?_, ?_⟩
  · rfl
  · simp [restRegister, hcount]
  · rfl
  · rfl

/-- Witness for C7 at a concrete store, request and storage error. -/
theorem storage_error_text_exposure_witness :
    restLogin [] "a@x.com" "pw1" (some ⟨false, "boom"⟩) 0 (.edPem "k")
      = .failure 500 "Internal server error"
    ∧ (restRegister [] "a@x.com" "pw1" none (some (hashPassword "s" "pw1"))
        (some ⟨false, "boom"⟩) 1 0).1
      = ⟨500, false, "Internal server error"⟩
    ∧ rpcLogin [] "a@x.com" "pw1" (some ⟨false, "boom"⟩) 0 (.edPem "k")
      = .error ⟨.internal, "boom"⟩
    ∧ (rpcRegister [] "a@x.com" "pw1" (some (hashPassword "s" "pw1"))
        (some ⟨false, "boom"⟩) 1 0).1
      = .error ⟨.internal, "boom"⟩ :=
  storage_error_text_exposure [] "a@x.com" "pw1" ⟨false, "boom"⟩
    (hashPassword "s" "pw1") 0 1 0 (.edPem "k") (by simp)

/-- Claim C10 (confirmed): in the HTTP register path, a failed existence
pre-check is silently ignored (`if let Ok(count)`, rest.rs line 152) and the
insert proceeds; the resulting unique violation on a duplicate email is
reported as the generic 500 response, not as the 409 conflict. -/
theorem precheck_failure_unique_violation_internal_error
    (db : List User) (username password : String) (e : DbErr)
    (h : HashString) (newId createdAt : Int)
    (hdupe : db.any (fun u => u.email == username) = true) :
    restRegister db username password (some e) (some h) none newId createdAt
      = (⟨500, false, "Internal server error"⟩, db)
    ∧ (restRegister db username password (some e) (some h) none
        newId createdAt).1
      ≠ ⟨409, false, "User already exists"⟩ := by
  have hins := insertUser_dupe db username (.valid h) newId createdAt hdupe
  constructor
  · simp [restRegister, hins]
  · simp [restRegister, hins]

/-- Witness for C10: the pre-check fails while "a@x.com" is already stored,
so the duplicate insert surfaces as a 500, not a 409. -/
theorem precheck_failure_unique_violation_internal_error_witness :
    restRegister [⟨1, "a@x.com", .valid (hashPassword "s" "pw1"), 0⟩]
        "a@x.com" "pw2" (some ⟨false, "boom"⟩)
        (some (hashPassword "t" "pw2")) none 2 1
      = (⟨500, false, "Internal server error"⟩,
         [⟨1, "a@x.com", .valid (hashPassword "s" "pw1"), 0⟩])
    ∧ (restRegister [⟨1, "a@x.com", .valid (hashPassword "s" "pw1"), 0⟩]
        "a@x.com" "pw2" (some ⟨false, "boom"⟩)
        (some (hashPassword "t" "pw2")) none 2 1).1
      ≠ ⟨409, false, "User already exists"⟩ :=
  precheck_failure_unique_violation_internal_error
    [⟨1, "a@x.com", .valid (hashPassword "s" "pw1"), 0⟩]
    "a@x.com" "pw2" ⟨false, "boom"⟩ (hashPassword "t" "pw2") 2 1 (by decide)

/-- Claim C9 (confirmed): no register success value serializes the password
hash — the HTTP and RPC register responses have exactly the fields success
and message, and the `User` returned by the handlers register path
serializes without its `password_hash` field (`#[serde(skip)]`,
models/user.rs line 7). -/
theorem register_response_omits_password_hash
    (db : List User) (email password : String) (hr : Option HashString)
    (ie : Option DbErr) (newId createdAt : Int) (u : User)
    (r1 : RestRegisterResult) (r2 : RpcRegisterResponse)
    (hsucc : (handlersRegister db email password hr ie newId createdAt).1
      = .ok u) :
    (serializeUser u).map Prod.fst = ["id", "email", "created_at"]
    ∧ "password_hash" ∉ (serializeUser u).map Prod.fst
    ∧ (serializeRestRegister r1).map Prod.fst = ["success", "message"]
    ∧ (serializeRpcRegister r2).map Prod.fst = ["success", "message"] := by
  refine ⟨?_, ?_, ?_, ?_⟩ <;>
    simp [serializeUser, serializeRestRegister, serializeRpcRegister]

/-- Witness for C9: a successful handlers register on the empty store. -/
theorem register_response_omits_password_hash_witness :
    (serializeUser ⟨1, "a@x.com", .valid (hashPassword "s" "pw1"), 0⟩).map
        Prod.fst = ["id", "email", "created_at"]
    ∧ "password_hash" ∉
        (serializeUser ⟨1, "a@x.com", .valid (hashPassword "s" "pw1"), 0⟩).map
          Prod.fst
    ∧ (serializeRestRegister ⟨201, true, "Registration successful"⟩).map
        Prod.fst = ["success", "message"]
    ∧ (serializeRpcRegister ⟨true, "User registered successfully"⟩).map
        Prod.fst = ["success", "message"] :=
  register_response_omits_password_hash [] "a@x.com" "pw1"
    (some (hashPassword "s" "pw1")) none 1 0
    ⟨1, "a@x.com", .valid (hashPassword "s" "pw1"), 0⟩
    ⟨201, true, "Registration successful"⟩
    ⟨true, "User registered successfully"⟩ (by rfl)

/-- Claim C1, counterexample: register "a@x.com" over HTTP, then login over
HTTP with the same credentials. The login succeeds, but the subject embedded
in the token is "1" — the generated numeric id rendered as a string
(`sub: user.id.to_string()`, rest.rs line 104) — not the registered email. -/
theorem rest_login_subject_is_id_counterexample :
    restLogin (restRegister [] "a@x.com" "pw1" none
          (some (hashPassword "s" "pw1")) none 1 0).2
        "a@x.com" "pw1" none 0 (.edPem "k")
      = .success 200 ⟨.EdDSA, ⟨"1", 604800⟩, .edPem "k"⟩ true "Login successful"
    ∧ ("1" : String) ≠ "a@x.com" := by
  refine ⟨?_, by decide⟩
  rfl

/-- Claim C2, counterexample: for the same store and the same login request,
the HTTP binding and the RPC binding both succeed but issue tokens with
different embedded Claims — subject "1" (the id) with a 7-day expiry over
HTTP versus subject "a@x.com" with a 24-hour expiry over RPC — refuting the
claim that the bindings produce tokens with equal embedded Claims. -/
theorem transport_bindings_differ_counterexample :
    restLogin [⟨1, "a@x.com", .valid (hashPassword "s" "pw1"), 0⟩]
        "a@x.com" "pw1" none 0 (.edPem "k")
      = .success 200 ⟨.EdDSA, ⟨"1", 604800⟩, .edPem "k"⟩ true "Login successful"
    ∧ rpcLogin [⟨1, "a@x.com", .valid (hashPassword "s" "pw1"), 0⟩]
        "a@x.com" "pw1" none 0 (.edPem "k")
      = .ok ⟨⟨.EdDSA, ⟨"a@x.com", 86400⟩, .edPem "k"⟩, true, "Login successful"⟩
    ∧ (⟨"1", 604800⟩ : Claims) ≠ ⟨"a@x.com", 86400⟩ := by
  refine ⟨?_, ?_, by decide⟩ <;> rfl

/-- Claim C4, counterexample: registering "a@x.com" a second time through
the RPC binding yields `Status::internal` carrying the constraint text —
the same `internal` classification as any other storage failure (here an
injected "storage offline") — refuting the claim that the second
registration fails with a conflict error distinguishable from other storage
failures. -/
theorem rpc_duplicate_register_internal_counterexample :
    (rpcRegister [⟨1, "a@x.com", .valid (hashPassword "s" "pw1"), 0⟩]
        "a@x.com" "pw2" (some (hashPassword "t" "pw2")) none 2 1).1
      = .error ⟨.internal, "UNIQUE constraint failed: users.email"⟩
    ∧ (rpcRegister [⟨1, "a@x.com", .valid (hashPassword "s" "pw1"), 0⟩]
        "a@x.com" "pw2" (some (hashPassword "t" "pw2"))
        (some ⟨false, "storage offline"⟩) 2 1).1
      = .error ⟨.internal, "storage offline"⟩ := by
  constructor <;> rfl

/-- Claim C5, counterexample: at the same issuance time 0, a successful HTTP
login issues a token expiring at 604800 (7 days, rest.rs line 105) while a
successful RPC login issues one expiring at 86400 (24 hours, rpc/auth.rs
line 47): no single fixed horizon is used for every issued token. -/
theorem login_expiry_horizons_differ_counterexample :
    restLogin [⟨1, "a@x.com", .valid (hashPassword "s" "pw1"), 0⟩]
        "a@x.com" "pw1" none 0 (.edPem "k")
      = .success 200 ⟨.EdDSA, ⟨"1", 604800⟩, .edPem "k"⟩ true "Login successful"
    ∧ rpcLogin [⟨1, "a@x.com", .valid (hashPassword "s" "pw1"), 0⟩]
        "a@x.com" "pw1" none 0 (.edPem "k")
      = .ok ⟨⟨.EdDSA, ⟨"a@x.com", 86400⟩, .edPem "k"⟩, true, "Login successful"⟩
    ∧ (604800 : Int) ≠ 86400 := by
  refine ⟨?_, ?_, by decide⟩ <;> rfl

/-- Claim C8, counterexample: the login handler of the handlers module —
cited by the claim — signs its token with `Header::default()` (HS256) and
`EncodingKey::from_secret("secret")` (handlers/auth.rs lines 72-76): a
symmetric hardcoded secret, not the EdDSA key loaded at startup. -/
theorem handlers_login_symmetric_key_counterexample :
    handlersLogin [⟨1, "a@x.com", .valid (hashPassword "s" "pw1"), 0⟩]
        "a@x.com" "pw1" none 0
      = .ok ⟨.HS256, ⟨"a@x.com", 86400⟩, .fromSecret "secret"⟩
    ∧ Alg.HS256 ≠ Alg.EdDSA
    ∧ SigningKey.fromSecret "secret" ≠ .edPem "k" := by
  refine ⟨?_, by decide, by decide⟩
  rfl

/-- Claim C5 (corrected): every successful login sets the expiration to the
issuance time plus a horizon that is fixed per path, but the horizons
differ: 7 days in the HTTP binding, 24 hours in the RPC binding and in the
handlers module. -/
theorem login_expiry_per_path
    (db1 db2 db3 : List User) (u1 p1 u2 p2 u3 p3 : String)
    (fe1 fe2 fe3 : Option DbErr) (n1 n2 n3 : Int) (k1 k2 : SigningKey)
    (st : Nat) (t : Token) (b : Bool) (m : String)
    (r : RpcLoginResponse) (t3 : Token)
    (h1 : restLogin db1 u1 p1 fe1 n1 k1 = .success st t b m)
    (h2 : rpcLogin db2 u2 p2 fe2 n2 k2 = .ok r)
    (h3 : handlersLogin db3 u3 p3 fe3 n3 = .ok t3) :
    t.claims.exp = n1 + sevenDays
    ∧ r.token.claims.exp = n2 + twentyFourHours
    ∧ t3.claims.exp = n3 + twentyFourHours := by
  have s1 := restLoginCore_success _ p1 n1 k1 st t b m h1
  have s2 := rpcLoginCore_success _ p2 n2 k2 r h2
  have s3 := handlersLoginCore_success _ p3 n3 t3 h3
  exact ⟨s1.2.2.2.2.2.1, s2.2.2.2.2.1, s3.2.2.1⟩

/-- Witness for C5: concrete successful logins through all three paths. -/
theorem login_expiry_per_path_witness :
    (⟨.EdDSA, ⟨"1", 604800⟩, .edPem "k"⟩ : Token).claims.exp = 0 + sevenDays
    ∧ (⟨.EdDSA, ⟨"a@x.com", 86400⟩, .edPem "k"⟩ : Token).claims.exp
        = 0 + twentyFourHours
    ∧ (⟨.HS256, ⟨"a@x.com", 86400⟩, .fromSecret "secret"⟩ : Token).claims.exp
        = 0 + twentyFourHours :=
  login_expiry_per_path
    [⟨1, "a@x.com", .valid (hashPassword "s" "pw1"), 0⟩]
    [⟨1, "a@x.com", .valid (hashPassword "s" "pw1"), 0⟩]
    [⟨1, "a@x.com", .valid (hashPassword "s" "pw1"), 0⟩]
    "a@x.com" "pw1" "a@x.com" "pw1" "a@x.com" "pw1"
    none none none 0 0 0 (.edPem "k") (.edPem "k")
    200 ⟨.EdDSA, ⟨"1", 604800⟩, .edPem "k"⟩ true "Login successful"
    ⟨⟨.EdDSA, ⟨"a@x.com", 86400⟩, .edPem "k"⟩, true, "Login successful"⟩
    ⟨.HS256, ⟨"a@x.com", 86400⟩, .fromSecret "secret"⟩
    (by rfl) (by rfl) (by rfl)

/-- Claim C8 (corrected): the two transports mounted by main.rs sign every
issued token with EdDSA and the single `from_ed_pem` key of the shared
`AppState` loaded at startup; but the handlers module (present in src/,
cited by the claim, not reachable from main.rs) signs its login tokens with
HS256 and the hardcoded symmetric secret "secret". -/
theorem signing_key_per_path
    (dbs db1 db2 db3 : List User) (pem : String)
    (u1 p1 u2 p2 u3 p3 : String)
    (fe1 fe2 fe3 : Option DbErr) (n1 n2 n3 : Int)
    (st : Nat) (t : Token) (b : Bool) (m : String)
    (r : RpcLoginResponse) (t3 : Token)
    (h1 : restLogin db1 u1 p1 fe1 n1 (loadAppState dbs pem).encoding_key
      = .success st t b m)
    (h2 : rpcLogin db2 u2 p2 fe2 n2 (loadAppState dbs pem).encoding_key
      = .ok r)
    (h3 : handlersLogin db3 u3 p3 fe3 n3 = .ok t3) :
    t.alg = .EdDSA ∧ t.key = .edPem pem
    ∧ r.token.alg = .EdDSA ∧ r.token.key = .edPem pem
    ∧ t3.alg = .HS256 ∧ t3.key = .fromSecret "secret" := by
  have s1 := restLoginCore_success _ p1 n1 (loadAppState dbs pem).encoding_key
    st t b m h1
  have s2 := rpcLoginCore_success _ p2 n2 (loadAppState dbs pem).encoding_key
    r h2
  have s3 := handlersLoginCore_success _ p3 n3 t3 h3
  exact ⟨s1.2.2.2.1, s1.2.2.2.2.1, s2.2.2.1, s2.2.2.2.1, s3.1, s3.2.1⟩

/-- Witness for C8: concrete successful logins through all three paths with
the startup key loaded from pem "k". -/
theorem signing_key_per_path_witness :
    (⟨.EdDSA, ⟨"1", 604800⟩, .edPem "k"⟩ : Token).alg = .EdDSA
    ∧ (⟨.EdDSA, ⟨"1", 604800⟩, .edPem "k"⟩ : Token).key = .edPem "k"
    ∧ (⟨⟨.EdDSA, ⟨"a@x.com", 86400⟩, .edPem "k"⟩, true,
        "Login successful"⟩ : RpcLoginResponse).token.alg = .EdDSA
    ∧ (⟨⟨.EdDSA, ⟨"a@x.com", 86400⟩, .edPem "k"⟩, true,
        "Login successful"⟩ : RpcLoginResponse).token.key = .edPem "k"
    ∧ (⟨.HS256, ⟨"a@x.com", 86400⟩, .fromSecret "secret"⟩ : Token).alg = .HS256
    ∧ (⟨.HS256, ⟨"a@x.com", 86400⟩, .fromSecret "secret"⟩ : Token).key
        = .fromSecret "secret" :=
  signing_key_per_path []
    [⟨1, "a@x.com", .valid (hashPassword "s" "pw1"), 0⟩]
    [⟨1, "a@x.com", .valid (hashPassword "s" "pw1"), 0⟩]
    [⟨1, "a@x.com", .valid (hashPassword "s" "pw1"), 0⟩]
    "k" "a@x.com" "pw1" "a@x.com" "pw1" "a@x.com" "pw1"
    none none none 0 0 0
    200 ⟨.EdDSA, ⟨"1", 604800⟩, .edPem "k"⟩ true "Login successful"
    ⟨⟨.EdDSA, ⟨"a@x.com", 86400⟩, .edPem "k"⟩, true, "Login successful"⟩
    ⟨.HS256, ⟨"a@x.com", 86400⟩, .fromSecret "secret"⟩
    (by rfl) (by rfl) (by rfl)

/-- Claim C4 (corrected): registering an already-registered email leaves the
store unchanged in both bindings, and the HTTP binding reports the 409
conflict; but the RPC binding — which runs no existence pre-check — surfaces
the unique violation as `Status::internal`, the same classification as any
other storage failure, not as a distinguishable conflict. -/
theorem register_duplicate_outcomes
    (db : List User) (email password : String)
    (hashResult : Option HashString) (insertErr : Option DbErr)
    (h : HashString) (newId createdAt : Int)
    (hdupe : db.any (fun u => u.email == email) = true) :
    restRegister db email password none hashResult insertErr newId createdAt
      = (⟨409, false, "User already exists"⟩, db)
    ∧ rpcRegister db email password (some h) none newId createdAt
      = (.error ⟨.internal, "UNIQUE constraint failed: users.email"⟩, db) := by
  have hpos := countByEmail_pos db email hdupe
  have hins := insertUser_dupe db email (.valid h) newId createdAt hdupe
  constructor
  · simp [restRegister, hpos]
  · simp [rpcRegister, hins]

/-- Witness for C4: "a@x.com" is already stored; the second registration
conflicts over HTTP and is a generic internal error over RPC, with the store
unchanged in both. -/
theorem register_duplicate_outcomes_witness :
    restRegister [⟨1, "a@x.com", .valid (hashPassword "s" "pw1"), 0⟩]
        "a@x.com" "pw2" none (some (hashPassword "t" "pw2")) none 2 1
      = (⟨409, false, "User already exists"⟩,
         [⟨1, "a@x.com", .valid (hashPassword "s" "pw1"), 0⟩])
    ∧ rpcRegister [⟨1, "a@x.com", .valid (hashPassword "s" "pw1"), 0⟩]
        "a@x.com" "pw2" (some (hashPassword "t" "pw2")) none 2 1
      = (.error ⟨.internal, "UNIQUE constraint failed: users.email"⟩,
         [⟨1, "a@x.com", .valid (hashPassword "s" "pw1"), 0⟩]) :=
  register_duplicate_outcomes
    [⟨1, "a@x.com", .valid (hashPassword "s" "pw1"), 0⟩]
    "a@x.com" "pw2" (some (hashPassword "t" "pw2")) none
    (hashPassword "t" "pw2") 2 1 (by decide)

/-- Claim C1 (corrected): registering a fresh email and then logging in with
the same credentials succeeds in both mounted bindings; the RPC token embeds
subject = the registered email, but the HTTP token embeds subject = the
numeric id of the new identity rendered as a string, not the email. -/
theorem register_then_login_subject
    (db : List User) (email password salt pem : String)
    (newId createdAt now : Int)
    (hfresh : ∀ v ∈ db, (v.email == email) = false) :
    (rpcRegister db email password (some (hashPassword salt password)) none
        newId createdAt).1
      = .ok ⟨true, "User registered successfully"⟩
    ∧ rpcLogin (rpcRegister db email password
          (some (hashPassword salt password)) none newId createdAt).2
        email password none now (.edPem pem)
      = .ok ⟨⟨.EdDSA, ⟨email, now + twentyFourHours⟩, .edPem pem⟩, true,
          "Login successful"⟩
    ∧ (restRegister db email password none
        (some (hashPassword salt password)) none newId createdAt).1
      = ⟨201, true, "Registration successful"⟩
    ∧ restLogin (restRegister db email password none
          (some (hashPassword salt password)) none newId createdAt).2
        email password none now (.edPem pem)
      = .success 200 ⟨.EdDSA, ⟨toString newId, now + sevenDays⟩, .edPem pem⟩
          true "Login successful" := by
  have hins := insertUser_fresh db email
    (.valid (hashPassword salt password)) newId createdAt hfresh
  have hcount := countByEmail_eq_zero db email hfresh
  have hfind := findByEmail_snoc db
    ⟨newId, email, .valid (hashPassword salt password), createdAt⟩
    email hfresh rfl
  have hdb2rpc : (rpcRegister db email password
      (some (hashPassword salt password)) none newId createdAt).2
      = db ++ [⟨newId, email, .valid (hashPassword salt password), createdAt⟩] := by
    simp [rpcRegister, hins]
  have hdb2rest : (restRegister db email password none
      (some (hashPassword salt password)) none newId createdAt).2
      = db ++ [⟨newId, email, .valid (hashPassword salt password), createdAt⟩] := by
    simp [restRegister, hins, hcount]
  refine ⟨?_, ?_, ?_, ?_⟩
  · simp [rpcRegister, hins]
  · rw [hdb2rpc]
    simp [rpcLogin, rpcLoginCore, hfind, parseHash, verifyPassword_self,
      encodeJwt, keyMatches]
  · simp [restRegister, hins, hcount]
  · rw [hdb2rest]
    simp [restLogin, restLoginCore, hfind, parseHash, verifyPassword_self,
      encodeJwt, keyMatches]

/-- Witness for C1: register "a@x.com" on the empty store, then login, in
each binding. -/
theorem register_then_login_subject_witness :
    (rpcRegister [] "a@x.com" "pw1" (some (hashPassword "s" "pw1")) none 1 0).1
      = .ok ⟨true, "User registered successfully"⟩
    ∧ rpcLogin (rpcRegister [] "a@x.com" "pw1"
          (some (hashPassword "s" "pw1")) none 1 0).2
        "a@x.com" "pw1" none 0 (.edPem "k")
      = .ok ⟨⟨.EdDSA, ⟨"a@x.com", 0 + twentyFourHours⟩, .edPem "k"⟩, true,
          "Login successful"⟩
    ∧ (restRegister [] "a@x.com" "pw1" none
        (some (hashPassword "s" "pw1")) none 1 0).1
      = ⟨201, true, "Registration successful"⟩
    ∧ restLogin (restRegister [] "a@x.com" "pw1" none
          (some (hashPassword "s" "pw1")) none 1 0).2
        "a@x.com" "pw1" none 0 (.edPem "k")
      = .success 200 ⟨.EdDSA, ⟨toString (1 : Int), 0 + sevenDays⟩, .edPem "k"⟩
          true "Login successful" :=
  register_then_login_subject [] "a@x.com" "pw1" "s" "k" 1 0 0 (by simp)

theorem loginOutcome_core_eq (found : Except DbErr (Option User))
    (password : String) (now : Int) (key : SigningKey) :
    restLoginOutcome (restLoginCore found password now key)
      = rpcLoginOutcome (rpcLoginCore found password now key) := by
  cases found with
  | error e => rfl
  | ok opt =>
    cases opt with
    | none => rfl
    | some u =>
      cases hph : parseHash u.password_hash with
      | none =>
        simp [restLoginCore, rpcLoginCore, hph, restLoginOutcome,
          rpcLoginOutcome]
      | some ph =>
        cases hv : verifyPassword password ph with
        | false =>
          simp [restLoginCore, rpcLoginCore, hph, hv, restLoginOutcome,
            rpcLoginOutcome]
        | true =>
          cases hk : keyMatches .EdDSA key with
          | false =>
            simp [restLoginCore, rpcLoginCore, encodeJwt, hph, hv, hk,
              restLoginOutcome, rpcLoginOutcome]
          | true =>
            simp [restLoginCore, rpcLoginCore, encodeJwt, hph, hv, hk,
              restLoginOutcome, rpcLoginOutcome]

/-- Claim C2 (corrected): for every input the two mounted bindings agree on
the login success-or-error outcome and its classification (accepted /
invalid credentials / internal fault); but they are not identical: the
issued tokens embed different Claims (subject "1" — the id — with a 7-day
expiry over HTTP versus subject "a@x.com" with a 24-hour expiry over RPC),
and a duplicate registration is a 409 conflict over HTTP but a generic
internal error over RPC. -/
theorem login_outcome_equivalence_across_bindings :
    (∀ (db : List User) (username password : String)
        (findErr : Option DbErr) (now : Int) (key : SigningKey),
      restLoginOutcome (restLogin db username password findErr now key)
        = rpcLoginOutcome (rpcLogin db username password findErr now key))
    ∧ restLogin [⟨1, "a@x.com", .valid (hashPassword "s" "pw1"), 0⟩]
        "a@x.com" "pw1" none 0 (.edPem "k")
      = .success 200 ⟨.EdDSA, ⟨"1", 604800⟩, .edPem "k"⟩ true
          "Login successful"
    ∧ rpcLogin [⟨1, "a@x.com", .valid (hashPassword "s" "pw1"), 0⟩]
        "a@x.com" "pw1" none 0 (.edPem "k")
      = .ok ⟨⟨.EdDSA, ⟨"a@x.com", 86400⟩, .edPem "k"⟩, true,
          "Login successful"⟩
    ∧ (restRegister [⟨1, "a@x.com", .valid (hashPassword "s" "pw1"), 0⟩]
        "a@x.com" "pw2" none (some (hashPassword "t" "pw2")) none 2 1).1
      = ⟨409, false, "User already exists"⟩
    ∧ (rpcRegister [⟨1, "a@x.com", .valid (hashPassword "s" "pw1"), 0⟩]
        "a@x.com" "pw2" (some (hashPassword "t" "pw2")) none 2 1).1
      = .error ⟨.internal, "UNIQUE constraint failed: users.email"⟩ := by
  refine ⟨?_, by rfl, by rfl, by rfl, by rfl⟩
  intro db username password findErr now key
  unfold restLogin rpcLogin
  exact loginOutcome_core_eq _ password now key

end Bromance
